import Mathlib

/-
  Verification development for the jiuziai-macros repository.

  Three components are embedded:

  * namespace JV  — the `#[derive(Validate)]` proc macro of
    `src/validator/src/lib.rs` together with the runtime helper functions of
    `src/libs/src/validation/mod.rs` that the generated code calls.  The macro
    is modelled as a function from parsed field descriptions (`FieldSpec`) to
    the generated per-field code (`FieldGen`), and the generated token streams
    are interpreted by evaluation functions over a small universe of runtime
    values (`RVal`).  Generated code that is ill-typed or malformed Rust (it
    makes the consuming crate fail to compile) is given the outcome
    `ROut.stuck`.  The macro can emit three such fragments: the any-mode
    failure `return Err(#outer_message.unwrap().to_string())`, which
    interpolates the `Option<String>` as a bare string literal and `&str`
    has no method `unwrap`; any value check on an `Option` field, which
    reads a variable `inner` that no surrounding scope binds; and every
    `len`/`range`/`size` call, which interpolates the `Option`-typed bounds
    `#min, #max` as a bare suffixed literal (`Some`) or as nothing (`None`),
    a type mismatch against the helper's `Option<_>` parameters or an empty
    argument slot between commas.

  * namespace Core — the type classifier of
    `src/core/src/validate/types/basic_types.rs` and
    `src/core/src/validate/types/generic_types.rs`, plus the `deep`-rule
    acceptance condition of `src/core/src/validate/boundary.rs`.

  * namespace RG — the `regexes_static` pattern-registry generator of
    `src/core/src/regex/tokens.rs` and the lookup surface of the code it
    generates.  The external `regex` crate is abstracted as a `RegexEngine`
    (a compilation function returning `none` on an invalid pattern).
-/

namespace JV

/-- Runtime values of record fields, the universe over which the generated
validation code is interpreted: strings, integers (the generated `range`
check converts into `i128`, modelled as unbounded `Int`), vectors encoded as
`vnil`/`vcons` chains, and `Option` values encoded as `noneV`/`someV`. -/
inductive RVal where
  | str (s : String)
  | int (n : Int)
  | vnil
  | vcons (hd tl : RVal)
  | noneV
  | someV (v : RVal)
  deriving DecidableEq

/-- Encoding of a Rust `Vec` value into `RVal`. -/
def listToRVal : List RVal → RVal
  | [] => RVal.vnil
  | x :: rest => RVal.vcons x (listToRVal rest)

/-- Decoding of an `RVal` back into a `Vec` value (`none` for non-vector
values, whose use at a `Vec` position is ill-typed). -/
def asList : RVal → Option (List RVal)
  | RVal.vnil => some []
  | RVal.vcons h t => (asList t).map (fun r => h :: r)
  | _ => none

/-- Outcome of running a piece of generated code.  `ok` and `fail` mirror
`Ok(..)` and `Err(msg)` of the generated `Result<bool, String>`; `stuck`
marks execution reaching generated code that is not well-typed Rust (such
code makes the consuming crate fail to compile, so it has no run-time
behaviour at all). -/
inductive ROut (α : Type) where
  | ok (a : α)
  | fail (msg : String)
  | stuck
  deriving DecidableEq

/-- Abstraction of the external `regex` crate: `compile` returns a matcher
for a valid pattern and `none` for an invalid one; `errDisplay` is the
display of the `regex::Error` used by `validate_regex` when compilation
fails. -/
structure RegexEngine where
  compile : String → Option (String → Bool)
  errDisplay : String → String

/-- Embedding of `helpers::validate_len_str` from
`src/libs/src/validation/mod.rs`: character-count length bounds, failing
with the caller-supplied message. -/
def validate_len_str (value : String) (mn mx : Option Nat) (message : String) :
    Except String Bool :=
  let len := value.length
  match mn with
  | some m =>
      if len < m then Except.error message
      else
        match mx with
        | some M => if len > M then Except.error message else Except.ok true
        | none => Except.ok true
  | none =>
      match mx with
      | some M => if len > M then Except.error message else Except.ok true
      | none => Except.ok true

/-- Embedding of `helpers::validate_range_i128`. -/
def validate_range_i128 (value : Int) (mn mx : Option Int) (message : String) :
    Except String Bool :=
  match mn with
  | some m =>
      if value < m then Except.error message
      else
        match mx with
        | some M => if value > M then Except.error message else Except.ok true
        | none => Except.ok true
  | none =>
      match mx with
      | some M => if value > M then Except.error message else Except.ok true
      | none => Except.ok true

/-- Embedding of `helpers::validate_size_len`. -/
def validate_size_len (len : Nat) (mn mx : Option Nat) (message : String) :
    Except String Bool :=
  match mn with
  | some m =>
      if len < m then Except.error message
      else
        match mx with
        | some M => if len > M then Except.error message else Except.ok true
        | none => Except.ok true
  | none =>
      match mx with
      | some M => if len > M then Except.error message else Except.ok true
      | none => Except.ok true

/-- Embedding of `helpers::validate_no_space`
(`value.chars().any(|c| c.is_whitespace())`, expressed over the character
list of the string). -/
def validate_no_space (value : String) (message : String) : Except String Bool :=
  if value.data.any (fun c => c.isWhitespace) then Except.error message
  else Except.ok true

/-- Embedding of `helpers::validate_not_empty_str` (`value.is_empty()`: a
string is empty exactly when it has no characters). -/
def validate_not_empty_str (value : String) (message : String) : Except String Bool :=
  if value.data.isEmpty then Except.error message else Except.ok true

/-- Embedding of `helpers::validate_not_blank`
(`value.trim().is_empty()`: trimming leaves the empty string exactly when
every character is whitespace). -/
def validate_not_blank (value : String) (message : String) : Except String Bool :=
  if value.data.all (fun c => c.isWhitespace) then Except.error message
  else Except.ok true

/-- Embedding of `helpers::validate_func`. -/
def validate_func (value : RVal) (func : RVal → Bool) (message : String) :
    Except String Bool :=
  if func value then Except.ok true else Except.error message

/-- Embedding of `helpers::validate_regex`: compiles the pattern on every
call; a pattern the engine rejects yields a synthesized
`regex compile error: ..` message instead of the rule message. -/
def validate_regex (eng : RegexEngine) (value pattern message : String) :
    Except String Bool :=
  match eng.compile pattern with
  | none => Except.error ("regex compile error: " ++ eng.errDisplay pattern)
  | some m => if m value then Except.ok true else Except.error message

/-- Embedding of `helpers::validate_enum_try_from`; the `TryFrom` conversion
of the target enum is abstracted as a predicate saying whether it succeeds. -/
def validate_enum_try_from (tryFromOk : RVal → Bool) (primitive : RVal)
    (message : String) : Except String Bool :=
  if tryFromOk primitive then Except.ok true else Except.error message

/-- One generated check of the derive macro, carrying the resolved message
literal (`msg_lit` in `src/validator/src/lib.rs`) and the parameters baked
into the generated helper call. -/
inductive GenCheck where
  | lenChk (mn mx : Option Nat) (msg : String)
  | rangeChk (mn mx : Option Int) (msg : String)
  | sizeChk (mn mx : Option Nat) (msg : String)
  | noSpaceChk (msg : String)
  | notEmptyChk (msg : String)
  | notBlankChk (msg : String)
  | funcChk (p : RVal → Bool) (msg : String)
  | regexChk (pattern : String) (msg : String)
  | enumsTryFromChk (tryFromOk : RVal → Bool) (msg : String)
  | enumsListChk (allowed : List RVal) (msg : String)
  | requireChk (msg : String)

/-- Message literal baked into a generated check. -/
def msgOf : GenCheck → String
  | .lenChk _ _ m => m
  | .rangeChk _ _ m => m
  | .sizeChk _ _ m => m
  | .noSpaceChk m => m
  | .notEmptyChk m => m
  | .notBlankChk m => m
  | .funcChk _ m => m
  | .regexChk _ m => m
  | .enumsTryFromChk _ m => m
  | .enumsListChk _ m => m
  | .requireChk m => m

/-- Discriminator for the regex check (the only generated check whose failure
can carry a message other than its own `msg_lit`). -/
def isRegexChk : GenCheck → Bool
  | .regexChk _ _ => true
  | _ => false

/-- Value access used by the generated checks (`val_access` in the macro):
for an `Option` field the macro emits the bare identifier `inner`, which no
surrounding scope binds, so the access is ill-typed — modelled as `none`.
For every other field it is `&self.field`, i.e. the field value itself. -/
def valAccess (isOpt : Bool) (v : RVal) : Option RVal :=
  if isOpt then none else some v

/-- Coercion performed by `(#val_access).as_ref()` at a `&str` argument
position; non-string values make the generated call ill-typed. -/
def asStr : RVal → Option String
  | .str s => some s
  | _ => none

/-- Sequential membership test generated for `enums(list = ...)`:
one equality arm per listed item, in order. -/
def memBy (v : RVal) : List RVal → Bool
  | [] => false
  | a :: rest => if v = a then true else memBy v rest

/-- Linear search mirroring the generated `for av in allowed` loop of the
group filter (`av == &_group`, with break on the first hit). -/
def groupLoop (g : RVal) : List RVal → Bool
  | [] => false
  | a :: rest => if a = g then true else groupLoop g rest

/-- Result of the generated helper call for one check, or `none` when the
generated call is ill-typed or malformed Rust (unbound `inner` on an
`Option` field, or an argument of the wrong shape).  The `len`, `range` and
`size` calls are always broken: the macro interpolates the `Option`-typed
bounds directly (`#min, #max`), and the `quote` interpolation of an
`Option` renders `Some(n)` as the bare suffixed literal `n` — a type
mismatch against the helper's `Option<_>` parameter — and `None` as
nothing, leaving an empty argument slot between commas — a syntax error; so
no generated `len`/`range`/`size` check ever reaches its helper
(`validate_len_str`, `validate_range_i128` and `validate_size_len` above
embed the library functions themselves, which are well-formed).
`enums(list)` and `require` checks do not go through a helper call and are
handled directly by the step functions. -/
def evalCall (eng : RegexEngine) (isOpt : Bool) (v : RVal) :
    GenCheck → Option (Except String Bool)
  | .lenChk _ _ _ => none
  | .rangeChk _ _ _ => none
  | .sizeChk _ _ _ => none
  | .noSpaceChk msg =>
      ((valAccess isOpt v).bind asStr).map (fun s => validate_no_space s msg)
  | .notEmptyChk msg =>
      ((valAccess isOpt v).bind asStr).map (fun s => validate_not_empty_str s msg)
  | .notBlankChk msg =>
      ((valAccess isOpt v).bind asStr).map (fun s => validate_not_blank s msg)
  | .funcChk p msg =>
      (valAccess isOpt v).map (fun w => validate_func w p msg)
  | .regexChk pattern msg =>
      ((valAccess isOpt v).bind asStr).map (fun s => validate_regex eng s pattern msg)
  | .enumsTryFromChk tf msg =>
      (valAccess isOpt v).map (fun w => validate_enum_try_from tf w msg)
  | _ => none

/-- One generated all-mode arm:
`match call { Ok(_) => {}, Err(e) => return Err(e) }`; the `require` check
is `if (&self.f).is_none() { return Err(msg) }` (ill-typed unless the field
is an `Option`), and `enums(list)` is a membership test returning the check
message on failure. -/
def evalAllStep (eng : RegexEngine) (isOpt : Bool) (v : RVal) :
    GenCheck → ROut Unit
  | .requireChk msg =>
      match v with
      | RVal.noneV => ROut.fail msg
      | RVal.someV _ => ROut.ok ()
      | _ => ROut.stuck
  | .enumsListChk allowed msg =>
      match valAccess isOpt v with
      | none => ROut.stuck
      | some w => if memBy w allowed then ROut.ok () else ROut.fail msg
  | c =>
      match evalCall eng isOpt v c with
      | none => ROut.stuck
      | some (Except.ok _) => ROut.ok ()
      | some (Except.error e) => ROut.fail e

/-- One generated any-mode arm:
`match call { Ok(_) => { passed = true }, Err(_) => {} }`; `require` sets
`passed` when the `Option` is `Some`, and `enums(list)` sets `passed` on a
membership hit. -/
def evalAnyStep (eng : RegexEngine) (isOpt : Bool) (v : RVal) (passed : Bool) :
    GenCheck → ROut Bool
  | .requireChk _ =>
      match v with
      | RVal.noneV => ROut.ok passed
      | RVal.someV _ => ROut.ok true
      | _ => ROut.stuck
  | .enumsListChk allowed _ =>
      match valAccess isOpt v with
      | none => ROut.stuck
      | some w => ROut.ok (passed || memBy w allowed)
  | c =>
      match evalCall eng isOpt v c with
      | none => ROut.stuck
      | some (Except.ok _) => ROut.ok true
      | some (Except.error _) => ROut.ok passed

/-- Sequential execution of the all-mode check list
(`#(#inner_checks_allmode)*`): the first `Err` returns immediately. -/
def runAllChecks (eng : RegexEngine) (isOpt : Bool) (v : RVal) :
    List GenCheck → ROut Unit
  | [] => ROut.ok ()
  | c :: rest =>
      match evalAllStep eng isOpt v c with
      | ROut.ok _ => runAllChecks eng isOpt v rest
      | ROut.fail m => ROut.fail m
      | ROut.stuck => ROut.stuck

/-- Sequential execution of the any-mode check list, threading the `passed`
flag (`let mut passed = false; #(#inner_checks_anymode)*`). -/
def runAnyChecks (eng : RegexEngine) (isOpt : Bool) (v : RVal) (passed : Bool) :
    List GenCheck → ROut Bool
  | [] => ROut.ok passed
  | c :: rest =>
      match evalAnyStep eng isOpt v passed c with
      | ROut.ok p2 => runAnyChecks eng isOpt v p2 rest
      | ROut.fail m => ROut.fail m
      | ROut.stuck => ROut.stuck

/-- Shape of the generated recursion block (`recursion_block` in the macro):
no recursion, `Option` of a user type, `Vec` of a user type, or
`Option<Vec<..>>` of a user type. -/
inductive RecKind where
  | noRec
  | optRec
  | vecRec
  | optVecRec
  deriving DecidableEq

/-- Per-field generated code: mode flag and resolved outer message, the
generated check list in declaration order, the group tags (already in their
serialized `serde_json::Value` representation, modelled inside `RVal`), the
recursion-block shape and the nested type's own `check` (trait dispatch). -/
structure FieldGen where
  isOption : Bool
  outerMessage : Option String
  checks : List GenCheck
  groups : List RVal
  recKind : RecKind
  nested : RVal → Except String Bool

/-- Interpretation of the generated per-field rule block (`any_block` in the
macro).  With an outer message the mode is ANY: the checks only update
`passed`, and on `!passed` the generated failure expression is
`return Err(#outer_message.unwrap().to_string())`, which after interpolation
is `"<lit>".unwrap().to_string()` — `&str` has no method `unwrap`, so that
path is ill-typed generated code, modelled as `stuck`.  Without an outer
message the mode is ALL and the block is the fail-fast check sequence. -/
def runFieldRules (eng : RegexEngine) (fg : FieldGen) (v : RVal) : ROut Unit :=
  match fg.outerMessage with
  | some _ =>
      match runAnyChecks eng fg.isOption v false fg.checks with
      | ROut.ok passed => if passed then ROut.ok () else ROut.stuck
      | ROut.fail m => ROut.fail m
      | ROut.stuck => ROut.stuck
  | none => runAllChecks eng fg.isOption v fg.checks

/-- Ordered traversal of a collection of nested records:
`for item in .. { if let Err(e) = item.check() { return Err(e); } }`. -/
def nestedFold (n : RVal → Except String Bool) : List RVal → ROut Unit
  | [] => ROut.ok ()
  | x :: rest =>
      match n x with
      | Except.error e => ROut.fail e
      | Except.ok _ => nestedFold n rest

/-- Interpretation of the generated recursion block. -/
def runRecursionBlock (fg : FieldGen) (v : RVal) : ROut Unit :=
  match fg.recKind, v with
  | RecKind.noRec, _ => ROut.ok ()
  | RecKind.vecRec, w =>
      (match asList w with
       | some items => nestedFold fg.nested items
       | none => ROut.stuck)
  | RecKind.optVecRec, RVal.noneV => ROut.ok ()
  | RecKind.optVecRec, RVal.someV w =>
      (match asList w with
       | some items => nestedFold fg.nested items
       | none => ROut.stuck)
  | RecKind.optVecRec, _ => ROut.stuck
  | RecKind.optRec, RVal.noneV => ROut.ok ()
  | RecKind.optRec, RVal.someV x =>
      (match fg.nested x with
       | Except.error e => ROut.fail e
       | Except.ok _ => ROut.ok ())
  | RecKind.optRec, _ => ROut.stuck

/-- Whole per-field block as pushed into `checks_tokens`: the rule block
followed by the recursion block. -/
def runField (eng : RegexEngine) (fg : FieldGen) (v : RVal) : ROut Unit :=
  match runFieldRules eng fg v with
  | ROut.ok _ => runRecursionBlock fg v
  | ROut.fail m => ROut.fail m
  | ROut.stuck => ROut.stuck

/-- Generated `check()` body: the per-field blocks in declaration order,
each early-returning on failure, and `Ok(true)` at the end. -/
def runStructCheck (eng : RegexEngine) : List (FieldGen × RVal) → ROut Bool
  | [] => ROut.ok true
  | (fg, v) :: rest =>
      match runField eng fg v with
      | ROut.ok _ => runStructCheck eng rest
      | ROut.fail m => ROut.fail m
      | ROut.stuck => ROut.stuck

/-- Per-field portion of the generated `check_group` body: the group filter
(`group_block`) followed by the guarded field block.  With no group tags the
macro emits `let run_field = true;`; otherwise `run_field` is set by the
linear search over the serialized tags. -/
def runFieldInGroup (eng : RegexEngine) (g : RVal) (fg : FieldGen) (v : RVal) :
    ROut Unit :=
  if fg.groups.isEmpty then runField eng fg v
  else if groupLoop g fg.groups then runField eng fg v
  else ROut.ok ()

/-- Generated `check_group(_group)` body. -/
def runStructGroup (eng : RegexEngine) (g : RVal) :
    List (FieldGen × RVal) → ROut Bool
  | [] => ROut.ok true
  | (fg, v) :: rest =>
      match runFieldInGroup eng g fg v with
      | ROut.ok _ => runStructGroup eng g rest
      | ROut.fail m => ROut.fail m
      | ROut.stuck => ROut.stuck

/-- Compile-time diagnostic emitted by the macro
(`compile_error!("missing message for '<kind>' check on field ..")`),
identified by the check kind it names. -/
structure CompileErr where
  checkKind : String
  deriving DecidableEq

/-- One parsed `check(..)` item as extracted from the `#[validate]`
attribute, before message resolution.  `func` and `regex` keep their
mandatory argument optional because the macro silently skips the check when
it is absent; `unknown` stands for an unrecognized check kind (silently
ignored by the macro). -/
inductive CheckSpec where
  | len (mn mx : Option Nat) (msg : Option String)
  | range (mn mx : Option Int) (msg : Option String)
  | size (mn mx : Option Nat) (msg : Option String)
  | noSpace (msg : Option String)
  | notEmpty (msg : Option String)
  | notBlank (msg : Option String)
  | func (p : Option (RVal → Bool)) (msg : Option String)
  | regexSpec (pattern : Option String) (msg : Option String)
  | enums (tryFromOk : Option (RVal → Bool)) (list : List RVal) (msg : Option String)
  | require (msg : Option String)
  | unknown

/-- Message resolution (`msg_lit` in the macro): in any mode a missing
per-rule message defaults to the empty string; in all mode it is a
compile-time error naming the check kind. -/
def resolveMsg (anyMode : Bool) (kind : String) (msg : Option String) :
    Except CompileErr String :=
  if anyMode then Except.ok (msg.getD "")
  else
    match msg with
    | none => Except.error ⟨kind⟩
    | some m => Except.ok m

/-- Generation of one check (one arm of the `match kind.as_str()` in the
macro); returns `none` when the macro emits no code for the item. -/
def genCheck1 (anyMode : Bool) : CheckSpec → Except CompileErr (Option GenCheck)
  | CheckSpec.len mn mx msg =>
      (resolveMsg anyMode "len" msg).map (fun m => some (GenCheck.lenChk mn mx m))
  | CheckSpec.range mn mx msg =>
      (resolveMsg anyMode "range" msg).map (fun m => some (GenCheck.rangeChk mn mx m))
  | CheckSpec.size mn mx msg =>
      (resolveMsg anyMode "size" msg).map (fun m => some (GenCheck.sizeChk mn mx m))
  | CheckSpec.noSpace msg =>
      (resolveMsg anyMode "no_space" msg).map (fun m => some (GenCheck.noSpaceChk m))
  | CheckSpec.notEmpty msg =>
      (resolveMsg anyMode "not_empty" msg).map (fun m => some (GenCheck.notEmptyChk m))
  | CheckSpec.notBlank msg =>
      (resolveMsg anyMode "not_blank" msg).map (fun m => some (GenCheck.notBlankChk m))
  | CheckSpec.func p msg =>
      match p with
      | none => Except.ok none
      | some f =>
          (resolveMsg anyMode "func" msg).map (fun m => some (GenCheck.funcChk f m))
  | CheckSpec.regexSpec pattern msg =>
      match pattern with
      | none => Except.ok none
      | some pat =>
          (resolveMsg anyMode "regex" msg).map (fun m => some (GenCheck.regexChk pat m))
  | CheckSpec.enums tf list msg =>
      (resolveMsg anyMode "enums" msg).bind (fun m =>
        match tf with
        | some f => Except.ok (some (GenCheck.enumsTryFromChk f m))
        | none =>
            if list.isEmpty then Except.ok none
            else Except.ok (some (GenCheck.enumsListChk list m)))
  | CheckSpec.require msg =>
      (resolveMsg anyMode "require" msg).map (fun m => some (GenCheck.requireChk m))
  | CheckSpec.unknown => Except.ok none

/-- Generation of the whole check list in declaration order; the first
missing-message diagnostic aborts the derive. -/
def genChecks (anyMode : Bool) : List CheckSpec → Except CompileErr (List GenCheck)
  | [] => Except.ok []
  | c :: rest =>
      (genCheck1 anyMode c).bind (fun g1 =>
        (genChecks anyMode rest).map (fun gs =>
          match g1 with
          | none => gs
          | some g => g :: gs))

/-- Prefix test over character lists. -/
def charsPrefix : List Char → List Char → Bool
  | [], _ => true
  | _ :: _, [] => false
  | p :: ps, c :: cs => p = c && charsPrefix ps cs

/-- Substring search over character lists: the pattern occurs at some
position of the haystack. -/
def charsContains (pat : List Char) : List Char → Bool
  | [] => charsPrefix pat []
  | c :: cs => charsPrefix pat (c :: cs) || charsContains pat cs

/-- Rust's `str::contains` with a string pattern: substring containment. -/
def strContains (hay pat : String) : Bool :=
  charsContains pat.data hay.data

/-- Declared field types as the macro distinguishes them: a bare
identifier, `Option<Ident>`, `Vec<Ident>` or `Option<Vec<Ident>>`. -/
inductive FieldTy where
  | plain (ident : String)
  | opt (ident : String)
  | vecT (ident : String)
  | optVec (ident : String)
  deriving DecidableEq

/-- Rendering of the declared type as
`field.ty.to_token_stream().to_string()` produces it (proc-macro token
display separates tokens with spaces). -/
def tyString : FieldTy → String
  | FieldTy.plain ident => ident
  | FieldTy.opt ident => "Option < " ++ ident ++ " >"
  | FieldTy.vecT ident => "Vec < " ++ ident ++ " >"
  | FieldTy.optVec ident => "Option < Vec < " ++ ident ++ " > >"

/-- The macro's `is_option` flag: the substring test
`ty_s.contains("Option")` on the rendered type — so a bare type whose name
contains `Option` also counts as an `Option` field. -/
def isOptionTy (ty : FieldTy) : Bool :=
  strContains (tyString ty) "Option"

/-- The macro's `is_vec` flag: the substring test `ty_s.contains("Vec")` on
the rendered type — so a bare type whose name contains `Vec` (such as
`Vector3`) also counts as a `Vec` field. -/
def isVecTy (ty : FieldTy) : Bool :=
  strContains (tyString ty) "Vec"

/-- Last path segment of the first generic argument (or of the type itself
when it has no generic arguments), as extracted by the macro to decide
recursion; for `Option<Vec<T>>` the extracted identifier is `Vec`. -/
def innerIdent : FieldTy → String
  | FieldTy.plain ident => ident
  | FieldTy.opt ident => ident
  | FieldTy.vecT ident => ident
  | FieldTy.optVec _ => "Vec"

/-- Primitive and std type names the macro refuses to recurse into. -/
def rustPrimitives : List String :=
  ["i8", "i16", "i32", "i64", "i128", "isize", "u8", "u16", "u32", "u64",
   "u128", "usize", "f32", "f64", "bool", "String", "str", "char"]

/-- First character uppercase, `false` for the empty string. -/
def headIsUpper (s : String) : Bool :=
  match s.data with
  | [] => false
  | c :: _ => c.isUpper

/-- The macro's `try_recursive` flag. -/
def tryRecursive (ty : FieldTy) : Bool :=
  if rustPrimitives.contains (innerIdent ty) then false
  else headIsUpper (innerIdent ty)

/-- Recursion-block selection of the macro, keyed on the substring-based
`is_vec` / `is_option` flags: `Vec`- and `Option`-flagged types get
dedicated blocks, anything else falls into the empty `else` branch and
produces no recursion code at all (so a plain user type recurses exactly
when its name contains the `Vec` or `Option` substring). -/
def recKindOf (ty : FieldTy) : RecKind :=
  if tryRecursive ty then
    if isVecTy ty then
      if isOptionTy ty then RecKind.optVecRec else RecKind.vecRec
    else if isOptionTy ty then RecKind.optRec
    else RecKind.noRec
  else RecKind.noRec

/-- One field as handed to the macro: declared type, optional field-level
message, group tags (in serialized representation) and the parsed check
list; `nested` is the `check` implementation of the field's user type (used
by the recursion block through trait dispatch). -/
structure FieldSpec where
  ty : FieldTy
  outerMessage : Option String
  groups : List RVal
  checks : List CheckSpec
  nested : RVal → Except String Bool

/-- Per-field code generation of the derive macro. -/
def genField (f : FieldSpec) : Except CompileErr FieldGen :=
  (genChecks f.outerMessage.isSome f.checks).map (fun cs =>
    { isOption := isOptionTy f.ty
      outerMessage := f.outerMessage
      checks := cs
      groups := f.groups
      recKind := recKindOf f.ty
      nested := f.nested })

/-- Code generation over the field list, in declaration order. -/
def genFields : List FieldSpec → Except CompileErr (List FieldGen)
  | [] => Except.ok []
  | f :: rest =>
      (genField f).bind (fun fg =>
        (genFields rest).map (fun rest2 => fg :: rest2))

/-- Shape of the derive input (`syn::Data` and `syn::Fields`): only a struct
with named fields enters the field loop. -/
inductive DeriveData where
  | structNamed (fields : List FieldSpec)
  | structTuple
  | structUnit
  | enumData
  | unionData

/-- Discriminator for the only shape the macro processes. -/
def isNamedStruct : DeriveData → Bool
  | DeriveData.structNamed _ => true
  | _ => false

/-- The derive macro `derive_validate` of `src/validator/src/lib.rs`: field
blocks are generated only for a struct with named fields; every other input
falls through the two `if let` guards and yields the impl with empty bodies
(`Ok(true)` for both entry points) and no diagnostic. -/
def derive_validate : DeriveData → Except CompileErr (List FieldGen)
  | DeriveData.structNamed fs => genFields fs
  | _ => Except.ok []

end JV

namespace Core

/-- Abstraction of `syn::Type` as used by the classifier: a path type with
its segment names and the generic arguments of the last segment, or any
other type form (`other`), which classifies as unsupported. -/
inductive RustTy where
  | path (segs : List String) (args : List RustTy)
  | other

/-- The base categories of
`src/core/src/validate/types/basic_types.rs`. -/
inductive BasicValidationType where
  | string
  | integer
  | float
  | boolean
  | decimal
  | dateTime
  | customStruct
  | enumT
  | unsupported
  deriving DecidableEq

/-- Integer type names of the classifier table. -/
def integerNames : List String :=
  ["i8", "i16", "i32", "i64", "i128", "isize",
   "u8", "u16", "u32", "u64", "u128", "usize"]

/-- Last-segment names excluded from `CustomStruct` classification
(`is_custom_type` denylist). -/
def customDenyLastSegs : List String :=
  ["String", "i8", "i16", "i32", "i64", "i128", "isize", "u8", "u16", "u32",
   "u64", "u128", "usize", "f32", "f64", "bool", "Decimal", "DateTime",
   "NaiveDateTime", "NaiveDate", "Vec", "Option", "HashSet", "HashMap"]

/-- Embedding of `BasicValidationType::is_custom_type`: reject known foreign
crate roots by the first segment, then reject known std names by the last
segment. -/
def is_custom_type (segs : List String) : Bool :=
  match segs.head? with
  | some "std" => false
  | some "core" => false
  | some "alloc" => false
  | some "chrono" => false
  | some "rust_decimal" => false
  | _ =>
      match segs.getLast? with
      | some l => !(customDenyLastSegs.contains l)
      | none => true

/-- Embedding of `BasicValidationType::is_enum_type` (a stub returning
`false` in the source). -/
def is_enum_type (_segs : List String) : Bool := false

/-- Embedding of `BasicValidationType::from_type`, the fixed name table. -/
def BasicValidationType.from_type : RustTy → BasicValidationType
  | RustTy.path segs _ =>
      match segs.getLast? with
      | some last =>
          if last = "String" then BasicValidationType.string
          else if integerNames.contains last then BasicValidationType.integer
          else if last = "f32" ∨ last = "f64" then BasicValidationType.float
          else if last = "bool" then BasicValidationType.boolean
          else if last = "Decimal" then BasicValidationType.decimal
          else if last = "DateTime" ∨ last = "NaiveDateTime" ∨ last = "NaiveDate" then
            BasicValidationType.dateTime
          else if is_custom_type segs then BasicValidationType.customStruct
          else if is_enum_type segs then BasicValidationType.enumT
          else BasicValidationType.unsupported
      | none => BasicValidationType.unsupported
  | RustTy.other => BasicValidationType.unsupported

/-- Embedding of `BasicValidationType::is_collection_compatible`. -/
def BasicValidationType.is_collection_compatible : BasicValidationType → Bool
  | BasicValidationType.unsupported => false
  | _ => true

/-- The wrapper-aware categories of
`src/core/src/validate/types/generic_types.rs`. -/
inductive GenericValidationType where
  | basic (b : BasicValidationType)
  | option (inner : GenericValidationType)
  | vec (inner : GenericValidationType)
  | hashSet (inner : GenericValidationType)
  | hashMap (key value : GenericValidationType)

/-- Embedding of `GenericValidationType::is_valid`. -/
def GenericValidationType.is_valid : GenericValidationType → Bool
  | GenericValidationType.basic b => !(b = BasicValidationType.unsupported)
  | GenericValidationType.option inner => inner.is_valid
  | GenericValidationType.vec inner => inner.is_valid
  | GenericValidationType.hashSet inner => inner.is_valid
  | GenericValidationType.hashMap k v => k.is_valid && v.is_valid

/-- Embedding of `GenericValidationType::get_base_type`. -/
def GenericValidationType.get_base_type : GenericValidationType → BasicValidationType
  | GenericValidationType.basic b => b
  | GenericValidationType.option inner => inner.get_base_type
  | GenericValidationType.vec inner => inner.get_base_type
  | GenericValidationType.hashSet inner => inner.get_base_type
  | GenericValidationType.hashMap k _ => k.get_base_type

/-- Embedding of `GenericValidationType::is_collection`. -/
def GenericValidationType.is_collection : GenericValidationType → Bool
  | GenericValidationType.vec _ => true
  | GenericValidationType.hashSet _ => true
  | GenericValidationType.hashMap _ _ => true
  | _ => false

/-- Embedding of `GenericValidationType::is_custom_struct`. -/
def GenericValidationType.is_custom_struct (g : GenericValidationType) : Bool :=
  match g.get_base_type with
  | BasicValidationType.customStruct => true
  | _ => false

/-- Wrapper arm for `Option<..>`: keep the classification when the argument
is valid, otherwise the whole type is unsupported. -/
def optionArm (inner : GenericValidationType) : GenericValidationType :=
  if inner.is_valid then GenericValidationType.option inner
  else GenericValidationType.basic BasicValidationType.unsupported

/-- Wrapper arm for `Vec<..>`: the argument must classify to a basic,
collection-compatible category. -/
def vecArm (inner : GenericValidationType) : GenericValidationType :=
  match inner with
  | GenericValidationType.basic b =>
      if b.is_collection_compatible then GenericValidationType.vec inner
      else GenericValidationType.basic BasicValidationType.unsupported
  | _ => GenericValidationType.basic BasicValidationType.unsupported

/-- Wrapper arm for `HashSet<..>`, same constraint as `Vec`. -/
def hashSetArm (inner : GenericValidationType) : GenericValidationType :=
  match inner with
  | GenericValidationType.basic b =>
      if b.is_collection_compatible then GenericValidationType.hashSet inner
      else GenericValidationType.basic BasicValidationType.unsupported
  | _ => GenericValidationType.basic BasicValidationType.unsupported

/-- Wrapper arm for `HashMap<..,..>`: both arguments must classify to basic,
collection-compatible categories. -/
def hashMapArm (ki vi : GenericValidationType) : GenericValidationType :=
  match ki, vi with
  | GenericValidationType.basic kb, GenericValidationType.basic vb =>
      if kb.is_collection_compatible && vb.is_collection_compatible then
        GenericValidationType.hashMap ki vi
      else GenericValidationType.basic BasicValidationType.unsupported
  | _, _ => GenericValidationType.basic BasicValidationType.unsupported

/-- Embedding of `GenericValidationType::from_type_inner` with its depth
ceiling of 5; the wrapper names dispatch to the arm helpers above, any other
last segment classifies through the basic-name table. -/
def GenericValidationType.from_type_inner (t : RustTy) (depth : Nat) :
    GenericValidationType :=
  if depth > 5 then GenericValidationType.basic BasicValidationType.unsupported
  else
    match t with
    | RustTy.other => GenericValidationType.basic BasicValidationType.unsupported
    | RustTy.path segs args =>
        match segs.getLast? with
        | some "Option" =>
            (match args with
             | a :: _ => optionArm (GenericValidationType.from_type_inner a (depth + 1))
             | [] => GenericValidationType.basic BasicValidationType.unsupported)
        | some "Vec" =>
            (match args with
             | a :: _ => vecArm (GenericValidationType.from_type_inner a (depth + 1))
             | [] => GenericValidationType.basic BasicValidationType.unsupported)
        | some "HashSet" =>
            (match args with
             | a :: _ => hashSetArm (GenericValidationType.from_type_inner a (depth + 1))
             | [] => GenericValidationType.basic BasicValidationType.unsupported)
        | some "HashMap" =>
            (match args with
             | k :: rest =>
                 (match rest with
                  | vv :: _ =>
                      hashMapArm (GenericValidationType.from_type_inner k (depth + 1))
                        (GenericValidationType.from_type_inner vv (depth + 1))
                  | [] => GenericValidationType.basic BasicValidationType.unsupported)
             | [] => GenericValidationType.basic BasicValidationType.unsupported)
        | some _ => GenericValidationType.basic (BasicValidationType.from_type t)
        | none => GenericValidationType.basic BasicValidationType.unsupported
termination_by sizeOf t
decreasing_by
  all_goals simp
  all_goals omega

/-- Embedding of `GenericValidationType::from_type`. -/
def GenericValidationType.from_type (t : RustTy) : GenericValidationType :=
  GenericValidationType.from_type_inner t 0

/-- The `deep`-rule acceptance condition of `validate_field_rules` in
`src/core/src/validate/boundary.rs` (the `supports_deep` local). -/
def supports_deep (t : RustTy) : Bool :=
  let vt := GenericValidationType.from_type t
  vt.is_custom_struct || (vt.is_collection && vt.is_custom_struct)

end Core

namespace RG

/-- Items of the annotated module as `regexes_static_gen` distinguishes
them: a `const NAME: &str = "literal";`, a const with any other initializer
(a hard error), or any non-const item (skipped). -/
inductive ModItem where
  | constStr (name : String) (lit : String)
  | constOther
  | otherItem

/-- The annotated module: `hasBody` is whether the module is inline
(`mod name { .. }`). -/
structure ItemMod where
  hasBody : Bool
  items : List ModItem

/-- Diagnostics of the generator. -/
inductive GenErr where
  | notInline
  | constNotLiteral
  deriving DecidableEq

/-- Result of the generator: the module unchanged (no entries), or the
module extended with the generated registry over the collected
`(name, pattern)` entries. -/
inductive GenOut where
  | unchanged
  | registry (entries : List (String × String))
  deriving DecidableEq

/-- Entry collection loop of `regexes_static_gen`: string-literal consts
become entries in declaration order, a non-literal const aborts with a
diagnostic, other items are skipped.  No pattern text is inspected. -/
def collectEntries : List ModItem → Except GenErr (List (String × String))
  | [] => Except.ok []
  | ModItem.constStr n l :: rest =>
      (collectEntries rest).map (fun r => (n, l) :: r)
  | ModItem.constOther :: _ => Except.error GenErr.constNotLiteral
  | ModItem.otherItem :: rest => collectEntries rest

/-- Embedding of `regexes_static_gen` of `src/core/src/regex/tokens.rs`. -/
def regexes_static_gen (m : ItemMod) : Except GenErr GenOut :=
  if !m.hasBody then Except.error GenErr.notInline
  else
    match collectEntries m.items with
    | Except.error e => Except.error e
    | Except.ok [] => Except.ok GenOut.unchanged
    | Except.ok entries => Except.ok (GenOut.registry entries)

/-- Generated `Patterns::names()`: the entry names in declaration order. -/
def names (entries : List (String × String)) : List String :=
  entries.map Prod.fst

/-- Arm-by-arm search of the generated `Patterns::from_name` match, with the
running identifier index. -/
def from_name_aux (s : String) : Nat → List (String × String) → Option Nat
  | _, [] => none
  | i, e :: rest => if e.1 = s then some i else from_name_aux s (i + 1) rest

/-- Generated `Patterns::from_name`: the identifier of the first entry whose
name matches, `None` otherwise. -/
def from_name (entries : List (String × String)) (s : String) : Option Nat :=
  from_name_aux s 0 entries

/-- Outcome of forcing a lazy matcher: the compiled matcher, or the fatal
`unwrap` panic. -/
inductive FatalOr (α : Type) where
  | ok (a : α)
  | fatal

/-- First access to a generated `Lazy<Regex>` static:
`Regex::new(lit).unwrap()` — the pattern is compiled here for the first
time, and an invalid pattern panics. -/
def lazy_regex_force (eng : JV.RegexEngine) (pat : String) :
    FatalOr (String → Bool) :=
  match eng.compile pat with
  | some m => FatalOr.ok m
  | none => FatalOr.fatal

/-- Generated `Patterns::regex` for the identifier `i` over the collected
entries: forcing the lazy static of entry `i`. -/
def patterns_regex (entries : List (String × String)) (eng : JV.RegexEngine)
    (i : Nat) : FatalOr (String → Bool) :=
  match entries.get? i with
  | some e => lazy_regex_force eng e.2
  | none => FatalOr.fatal

end RG

open JV Core RG

/-- Concrete instance of the external regex engine used for closed test
inputs: every pattern fails to compile, with a fixed error display.  Checks
other than `regex` never consult the engine. -/
def eng0 : RegexEngine := ⟨fun _ => none, fun _ => "unclosed group"⟩

/-- Concrete ANY-mode field: `String` field with a field-level message and a
single `no_space` check (messages on the rules are optional in this mode;
`no_space` is a rule kind whose generated call is well-formed, so the field
block genuinely reaches the any-mode failure path). -/
def c2spec : FieldSpec :=
  { ty := FieldTy.plain "String", outerMessage := some "outer msg", groups := [],
    checks := [CheckSpec.noSpace none], nested := fun _ => Except.ok true }

/-- Concrete `Option<String>` field with a non-`require` check and no
field-level message. -/
def c3spec : FieldSpec :=
  { ty := FieldTy.opt "String", outerMessage := none, groups := [],
    checks := [CheckSpec.notBlank (some "m")], nested := fun _ => Except.ok true }

/-- Concrete `Option<i32>` field carrying only a `require` check. -/
def c3req : FieldSpec :=
  { ty := FieldTy.opt "i32", outerMessage := none, groups := [],
    checks := [CheckSpec.require (some "id required")], nested := fun _ => Except.ok true }

/-- Concrete field of a plain (non-`Option`, non-`Vec`) user record type
whose own `check` always fails. -/
def c5spec : FieldSpec :=
  { ty := FieldTy.plain "Inner", outerMessage := none, groups := [],
    checks := [], nested := fun _ => Except.error "boom" }

/-- Nested check used in the collection-ordering witness: element `2` fails,
everything else passes. -/
def nC5 : RVal → Except String Bool :=
  fun v => if v = RVal.int 2 then Except.error "boom2" else Except.ok true

/-- Concrete field mixing a field-level message with a per-rule message. -/
def c6mix : FieldSpec :=
  { ty := FieldTy.plain "String", outerMessage := some "outer", groups := [],
    checks := [CheckSpec.len (some 1) none (some "rule msg")], nested := fun _ => Except.ok true }

/-- Concrete ALL-mode field with a rule lacking its own message. -/
def c6miss : FieldSpec :=
  { ty := FieldTy.plain "String", outerMessage := none, groups := [],
    checks := [CheckSpec.len (some 1) none none], nested := fun _ => Except.ok true }

/-- Concrete group-tagged field (tags `A`, `B`) used in the group-scoping
witness. -/
def c4fg : FieldGen :=
  { isOption := false, outerMessage := none,
    checks := [GenCheck.notBlankChk "blank"],
    groups := [RVal.str "A", RVal.str "B"], recKind := RecKind.noRec,
    nested := fun _ => Except.ok true }

/-- Concrete custom-record type path. -/
def myStructTy : RustTy := RustTy.path ["MyStruct"] []

/-- Module constructor feeding a list of named string constants to the
pattern-registry generator. -/
def mkMod (l : List (String × String)) : ItemMod :=
  ⟨true, l.map (fun p => ModItem.constStr p.1 p.2)⟩

/-- Concrete three-entry registry input mirroring the repository test
module. -/
def l3 : List (String × String) :=
  [("EMAIL", "e-pat"), ("DIGITS", "d-pat"), ("HEX_VALUE", "h-pat")]

/-- Failure of the length helper always carries the caller message. -/
theorem validate_len_str_error_msg (s : String) (mn mx : Option Nat) (msg e : String)
    (h : validate_len_str s mn mx msg = Except.error e) : e = msg := by
  simp only [validate_len_str] at h
  cases mn <;> cases mx <;> simp only at h <;> (try split_ifs at h) <;> simp_all

/-- Failure of the range helper always carries the caller message. -/
theorem validate_range_i128_error_msg (n : Int) (mn mx : Option Int) (msg e : String)
    (h : validate_range_i128 n mn mx msg = Except.error e) : e = msg := by
  simp only [validate_range_i128] at h
  cases mn <;> cases mx <;> simp only at h <;> (try split_ifs at h) <;> simp_all

/-- Failure of the size helper always carries the caller message. -/
theorem validate_size_len_error_msg (n : Nat) (mn mx : Option Nat) (msg e : String)
    (h : validate_size_len n mn mx msg = Except.error e) : e = msg := by
  simp only [validate_size_len] at h
  cases mn <;> cases mx <;> simp only at h <;> (try split_ifs at h) <;> simp_all

/-- Failure of the no-space helper always carries the caller message. -/
theorem validate_no_space_error_msg (s : String) (msg e : String)
    (h : validate_no_space s msg = Except.error e) : e = msg := by
  simp only [validate_no_space] at h
  split_ifs at h <;> simp_all

/-- Failure of the non-empty helper always carries the caller message. -/
theorem validate_not_empty_str_error_msg (s : String) (msg e : String)
    (h : validate_not_empty_str s msg = Except.error e) : e = msg := by
  simp only [validate_not_empty_str] at h
  split_ifs at h <;> simp_all

/-- Failure of the non-blank helper always carries the caller message. -/
theorem validate_not_blank_error_msg (s : String) (msg e : String)
    (h : validate_not_blank s msg = Except.error e) : e = msg := by
  simp only [validate_not_blank] at h
  split_ifs at h <;> simp_all

/-- Failure of the custom-predicate helper always carries the caller
message. -/
theorem validate_func_error_msg (v : RVal) (p : RVal → Bool) (msg e : String)
    (h : validate_func v p msg = Except.error e) : e = msg := by
  simp only [validate_func] at h
  split_ifs at h <;> simp_all

/-- Failure of the enum-conversion helper always carries the caller
message. -/
theorem validate_enum_try_from_error_msg (tf : RVal → Bool) (v : RVal) (msg e : String)
    (h : validate_enum_try_from tf v msg = Except.error e) : e = msg := by
  simp only [validate_enum_try_from] at h
  split_ifs at h <;> simp_all

/-- Checks other than `require` and `enums(list)` go through a generated
helper call. -/
def usesCall : GenCheck → Bool
  | GenCheck.requireChk _ => false
  | GenCheck.enumsListChk _ _ => false
  | _ => true

/-- For call-based checks the all-mode arm is exactly the propagation of the
helper call result. -/
theorem evalAllStep_eq_call (eng : RegexEngine) (isOpt : Bool) (v : RVal)
    (c : GenCheck) (hc : usesCall c = true) :
    evalAllStep eng isOpt v c =
      (match evalCall eng isOpt v c with
       | none => ROut.stuck
       | some (Except.ok _) => ROut.ok ()
       | some (Except.error e) => ROut.fail e) := by
  cases c <;> first | rfl | simp [usesCall] at hc

/-- An error produced by a generated helper call other than `regex` is the
check's own message literal. -/
theorem evalCall_error_msg (eng : RegexEngine) (isOpt : Bool) (v : RVal)
    (c : GenCheck) (m : String)
    (h : evalCall eng isOpt v c = some (Except.error m))
    (hreg : isRegexChk c = false) : m = msgOf c := by
  cases c with
  | lenChk mn mx msg => simp [evalCall] at h
  | rangeChk mn mx msg => simp [evalCall] at h
  | sizeChk mn mx msg => simp [evalCall] at h
  | noSpaceChk msg =>
      simp only [evalCall, Option.map_eq_some'] at h
      obtain ⟨s, _, hs⟩ := h
      exact validate_no_space_error_msg s msg m hs
  | notEmptyChk msg =>
      simp only [evalCall, Option.map_eq_some'] at h
      obtain ⟨s, _, hs⟩ := h
      exact validate_not_empty_str_error_msg s msg m hs
  | notBlankChk msg =>
      simp only [evalCall, Option.map_eq_some'] at h
      obtain ⟨s, _, hs⟩ := h
      exact validate_not_blank_error_msg s msg m hs
  | funcChk p msg =>
      simp only [evalCall, Option.map_eq_some'] at h
      obtain ⟨w, _, hs⟩ := h
      exact validate_func_error_msg w p msg m hs
  | regexChk pat msg => simp [isRegexChk] at hreg
  | enumsTryFromChk tf msg =>
      simp only [evalCall, Option.map_eq_some'] at h
      obtain ⟨w, _, hs⟩ := h
      exact validate_enum_try_from_error_msg tf w msg m hs
  | enumsListChk allowed msg => simp [evalCall] at h
  | requireChk msg => simp [evalCall] at h

/-- A failing all-mode arm of any check other than `regex` fails with the
check's own message literal. -/
theorem evalAllStep_fail_msg (eng : RegexEngine) (isOpt : Bool) (v : RVal)
    (c : GenCheck) (m : String) (hfail : evalAllStep eng isOpt v c = ROut.fail m)
    (hreg : isRegexChk c = false) : m = msgOf c := by
  by_cases hc : usesCall c = true
  · rw [evalAllStep_eq_call eng isOpt v c hc] at hfail
    cases hcall : evalCall eng isOpt v c with
    | none => rw [hcall] at hfail; simp at hfail
    | some r =>
        cases r with
        | ok b => rw [hcall] at hfail; simp at hfail
        | error e =>
            rw [hcall] at hfail
            simp only at hfail
            cases hfail
            exact evalCall_error_msg eng isOpt v c m hcall hreg
  · cases c <;> simp [usesCall] at hc
    next allowed msg =>
        simp only [evalAllStep] at hfail
        cases hacc : valAccess isOpt v with
        | none => rw [hacc] at hfail; simp at hfail
        | some w =>
            rw [hacc] at hfail
            dsimp only at hfail
            split_ifs at hfail <;> simp_all [msgOf]
    next msg =>
        simp only [evalAllStep] at hfail
        cases v <;> simp_all [msgOf]

/-- All-mode execution of a list of passing checks succeeds. -/
theorem runAllChecks_of_forall_ok (eng : RegexEngine) (isOpt : Bool) (v : RVal)
    (cs : List GenCheck) (h : ∀ c ∈ cs, evalAllStep eng isOpt v c = ROut.ok ()) :
    runAllChecks eng isOpt v cs = ROut.ok () := by
  induction cs with
  | nil => rfl
  | cons c rest ih =>
      have hc := h c (List.mem_cons_self c rest)
      simp only [runAllChecks, hc]
      exact ih (fun c2 hc2 => h c2 (List.mem_cons_of_mem c hc2))

/-- All-mode execution stops at the first failing check and returns its
failure message, whatever the remaining checks are. -/
theorem runAllChecks_first_fail (eng : RegexEngine) (isOpt : Bool) (v : RVal)
    (cs₁ cs₂ : List GenCheck) (c : GenCheck) (m : String)
    (h₁ : ∀ c2 ∈ cs₁, evalAllStep eng isOpt v c2 = ROut.ok ())
    (hc : evalAllStep eng isOpt v c = ROut.fail m) :
    runAllChecks eng isOpt v (cs₁ ++ c :: cs₂) = ROut.fail m := by
  induction cs₁ with
  | nil => simp only [List.nil_append, runAllChecks, hc]
  | cons d rest ih =>
      have hd := h₁ d (List.mem_cons_self d rest)
      simp only [List.cons_append, runAllChecks, hd]
      exact ih (fun c2 hc2 => h₁ c2 (List.mem_cons_of_mem d hc2))

/-- Failure of the regex helper under a pattern the engine compiles always
carries the caller message. -/
theorem validate_regex_error_msg (eng : RegexEngine) (value pattern msg e : String)
    (f : String → Bool) (hc : eng.compile pattern = some f)
    (h : validate_regex eng value pattern msg = Except.error e) : e = msg := by
  simp only [validate_regex, hc] at h
  split_ifs at h <;> simp_all

/-- A failing all-mode regex arm whose pattern the engine compiles fails
with the rule's own message literal. -/
theorem evalAllStep_regex_fail_msg (eng : RegexEngine) (isOpt : Bool) (v : RVal)
    (pat msg : String) (f : String → Bool) (m : String)
    (hc : eng.compile pat = some f)
    (hfail : evalAllStep eng isOpt v (GenCheck.regexChk pat msg) = ROut.fail m) :
    m = msg := by
  rw [evalAllStep_eq_call eng isOpt v (GenCheck.regexChk pat msg) rfl] at hfail
  cases hcall : evalCall eng isOpt v (GenCheck.regexChk pat msg) with
  | none => rw [hcall] at hfail; simp at hfail
  | some r =>
      cases r with
      | ok b => rw [hcall] at hfail; simp at hfail
      | error e =>
          rw [hcall] at hfail
          simp only at hfail
          cases hfail
          simp only [evalCall, Option.map_eq_some'] at hcall
          obtain ⟨s, _, hs⟩ := hcall
          exact validate_regex_error_msg eng s pat msg m f hc hs

/-- Claim C1 (amended).  For an ALL-mode field (no field-level message) the
generated rule block is the fail-fast check sequence run left-to-right in
declaration order: if every rule passes the field contributes no failure;
the first failing rule aborts the check with that rule's failure message
and the rules after it are never evaluated (the conclusion does not depend
on the suffix `cs₂`).  The failure message is the rule's own message
literal for every rule kind that can fail at all, including a regex rule
whose pattern compiles (conjunct five), with two carve-outs forced by the
code: a regex rule whose pattern fails to compile returns the synthesized
pattern-compilation-error message instead, and `len`/`range`/`size` rules
never pass or fail — their generated calls interpolate the `Option`-typed
bounds as broken Rust, so any field carrying one does not compile at all
(conjunct six; see the counterexample for both carve-outs). -/
theorem c1_all_mode_first_fail :
    (∀ (eng : RegexEngine) (fg : FieldGen) (v : RVal),
        fg.outerMessage = none →
        runFieldRules eng fg v = runAllChecks eng fg.isOption v fg.checks)
  ∧ (∀ (eng : RegexEngine) (isOpt : Bool) (v : RVal) (cs : List GenCheck),
        (∀ c ∈ cs, evalAllStep eng isOpt v c = ROut.ok ()) →
        runAllChecks eng isOpt v cs = ROut.ok ())
  ∧ (∀ (eng : RegexEngine) (isOpt : Bool) (v : RVal) (cs₁ cs₂ : List GenCheck)
        (c : GenCheck) (m : String),
        (∀ c2 ∈ cs₁, evalAllStep eng isOpt v c2 = ROut.ok ()) →
        evalAllStep eng isOpt v c = ROut.fail m →
        runAllChecks eng isOpt v (cs₁ ++ c :: cs₂) = ROut.fail m)
  ∧ (∀ (eng : RegexEngine) (isOpt : Bool) (v : RVal) (c : GenCheck) (m : String),
        evalAllStep eng isOpt v c = ROut.fail m → isRegexChk c = false →
        m = msgOf c)
  ∧ (∀ (eng : RegexEngine) (isOpt : Bool) (v : RVal) (pat msg : String)
        (f : String → Bool) (m : String),
        eng.compile pat = some f →
        evalAllStep eng isOpt v (GenCheck.regexChk pat msg) = ROut.fail m →
        m = msg)
  ∧ (∀ (eng : RegexEngine) (isOpt : Bool) (v : RVal) (mn mx : Option Nat)
        (mni mxi : Option Int) (msg : String),
        evalAllStep eng isOpt v (GenCheck.lenChk mn mx msg) = ROut.stuck
        ∧ evalAllStep eng isOpt v (GenCheck.rangeChk mni mxi msg) = ROut.stuck
        ∧ evalAllStep eng isOpt v (GenCheck.sizeChk mn mx msg) = ROut.stuck) := by
  refine ⟨?_, runAllChecks_of_forall_ok, runAllChecks_first_fail,
    evalAllStep_fail_msg, ?_, ?_⟩
  · intro eng fg v h
    simp only [runFieldRules, h]
  · intro eng isOpt v pat msg f m hc hfail
    exact evalAllStep_regex_fail_msg eng isOpt v pat msg f m hc hfail
  · intro eng isOpt v mn mx mni mxi msg
    exact ⟨rfl, rfl, rfl⟩

/-- Witness for C1: the field `not_blank("blank"), no_space("no space"),
not_empty("empty")` at value `"abcdef ab"` passes the non-blank check,
fails the no-space check, and returns exactly `no space` with the
non-empty check never evaluated. -/
theorem c1_all_mode_first_fail_witness :
    runAllChecks eng0 false (RVal.str "abcdef ab")
      ([GenCheck.notBlankChk "blank"] ++
        GenCheck.noSpaceChk "no space" :: [GenCheck.notEmptyChk "empty"]) =
      ROut.fail "no space" :=
  c1_all_mode_first_fail.2.2.1 eng0 false (RVal.str "abcdef ab")
    [GenCheck.notBlankChk "blank"] [GenCheck.notEmptyChk "empty"]
    (GenCheck.noSpaceChk "no space") "no space"
    (by intro c2 hc2
        simp only [List.mem_singleton] at hc2
        subst hc2
        decide)
    (by decide)

/-- Counterexample to C1 as frozen, at two concrete inputs.  A `len` rule
that the value violates never returns its message: the generated call
passes broken bound arguments and the field does not compile (modelled
stuck).  A `regex` rule with an uncompilable pattern fails with the
synthesized `regex compile error: ..` message produced by
`validate_regex`, not the rule's own message. -/
theorem c1_first_fail_counterexample :
    runAllChecks eng0 false (RVal.str "ab")
      [GenCheck.lenChk (some 5) none "len bad"] = ROut.stuck
    ∧ ROut.stuck ≠ (ROut.fail "len bad" : ROut Unit)
    ∧ runAllChecks eng0 false (RVal.str "x") [GenCheck.regexChk "(" "own message"] =
        ROut.fail "regex compile error: unclosed group"
    ∧ ROut.fail "regex compile error: unclosed group" ≠
        (ROut.fail "own message" : ROut Unit) := by
  exact ⟨rfl, by decide, rfl, by decide⟩

/-- Claim C2 (code bug).  For the ANY-mode field `c2spec` (field-level
message `outer msg`, one `no_space` rule) the derive succeeds, and on the
value `"a b"` the rule fails, so no rule passes and the generated block
reaches the generated failure expression
`return Err("outer msg".unwrap().to_string())`, which is ill-typed Rust
(`&str` has no method `unwrap`), modelled as `stuck`; in particular the
outcome is not the claimed `Err("outer msg")`. -/
theorem c2_any_mode_generated_code_stuck :
    (genField c2spec).map (fun fg => runField eng0 fg (RVal.str "a b")) =
      Except.ok ROut.stuck
    ∧ (ROut.stuck : ROut Unit) ≠ ROut.fail "outer msg" := by
  exact ⟨rfl, by decide⟩

/-- Claim C3 (code bug).  For the `Option<String>` field `c3spec` carrying a
non-`require` rule, the generated check reads the unbound variable `inner`
(the macro emits no `if let Some(inner) = ..` binding around the rule
block), so the generated code is ill-typed and the absent value is not
skipped — modelled as `stuck` instead of the claimed pass.  The second
conjunct records the half of the claim the code does satisfy: a `require`
rule on an absent `Option` fails with the `require` rule's own message. -/
theorem c3_option_none_skip_stuck :
    (genField c3spec).map (fun fg => runField eng0 fg RVal.noneV) =
      Except.ok ROut.stuck
    ∧ (genField c3req).map (fun fg => runField eng0 fg RVal.noneV) =
      Except.ok (ROut.fail "id required") := by
  exact ⟨rfl, rfl⟩

/-- The generated group-filter loop finds the requested group exactly when
it equals one of the serialized tags. -/
theorem groupLoop_iff_mem (g : RVal) (l : List RVal) :
    groupLoop g l = true ↔ g ∈ l := by
  induction l with
  | nil => simp [groupLoop]
  | cons a rest ih =>
      by_cases hag : a = g
      · subst hag
        simp [groupLoop]
      · have hga : ¬g = a := fun h => hag h.symm
        simp [groupLoop, hag, hga, ih]

/-- A field whose group filter does not select it contributes the neutral
outcome. -/
theorem runFieldInGroup_skip (eng : RegexEngine) (g : RVal) (fg : FieldGen)
    (v : RVal) (hne : fg.groups ≠ []) (hnm : g ∉ fg.groups) :
    runFieldInGroup eng g fg v = ROut.ok () := by
  have hempty : fg.groups.isEmpty = false := by
    cases hgl : fg.groups with
    | nil => exact absurd hgl hne
    | cons a rest => simp [hgl]
  have hloop : groupLoop g fg.groups = false := by
    cases hl : groupLoop g fg.groups
    · rfl
    · exact absurd ((groupLoop_iff_mem g fg.groups).mp hl) hnm
  simp [runFieldInGroup, hempty, hloop]

/-- Claim C4.  The group-scoped entry point runs a field's block exactly
when the field carries no group tags or the requested group equals one of
its tags (equality over the serialized group representation); a field the
filter skips contributes neither a pass nor a fail: it yields the neutral
outcome and the whole `check_group` outcome is as if the field were
absent. -/
theorem c4_group_scoping :
    (∀ (eng : RegexEngine) (g : RVal) (fg : FieldGen) (v : RVal),
        fg.groups = [] ∨ g ∈ fg.groups →
        runFieldInGroup eng g fg v = runField eng fg v)
  ∧ (∀ (eng : RegexEngine) (g : RVal) (fg : FieldGen) (v : RVal),
        fg.groups ≠ [] → g ∉ fg.groups →
        runFieldInGroup eng g fg v = ROut.ok ())
  ∧ (∀ (eng : RegexEngine) (g : RVal) (fg : FieldGen) (v : RVal)
        (rest : List (FieldGen × RVal)),
        fg.groups ≠ [] → g ∉ fg.groups →
        runStructGroup eng g ((fg, v) :: rest) = runStructGroup eng g rest) := by
  refine ⟨?_, runFieldInGroup_skip, ?_⟩
  · intro eng g fg v h
    rcases h with h | h
    · simp [runFieldInGroup, h]
    · by_cases he : fg.groups.isEmpty
      · simp [runFieldInGroup, he]
      · simp [runFieldInGroup, he, (groupLoop_iff_mem g fg.groups).mpr h]
  · intro eng g fg v rest hne hnm
    simp only [runStructGroup, runFieldInGroup_skip eng g fg v hne hnm]

/-- Witness for C4: the field tagged `A`, `B` is skipped under requested
group `C` — `check_group` behaves as if the field were absent — and runs
under requested group `A`. -/
theorem c4_group_scoping_witness :
    runStructGroup eng0 (RVal.str "C") [(c4fg, RVal.str "x")] =
      runStructGroup eng0 (RVal.str "C") []
    ∧ runFieldInGroup eng0 (RVal.str "A") c4fg (RVal.str "x") =
      runField eng0 c4fg (RVal.str "x") :=
  ⟨c4_group_scoping.2.2 eng0 (RVal.str "C") c4fg (RVal.str "x") []
      (by decide) (by decide),
   c4_group_scoping.1 eng0 (RVal.str "A") c4fg (RVal.str "x")
      (Or.inr (by decide))⟩

/-- Round-trip of the vector encoding. -/
theorem asList_listToRVal (items : List RVal) :
    asList (listToRVal items) = some items := by
  induction items with
  | nil => rfl
  | cons x rest ih => simp [listToRVal, asList, ih]

/-- Ordered nested checking returns the first failing element's message,
whatever the elements after it are. -/
theorem nestedFold_first_fail (n : RVal → Except String Bool)
    (xs₁ xs₂ : List RVal) (x : RVal) (e : String)
    (h₁ : ∀ y ∈ xs₁, ∃ b, n y = Except.ok b) (hx : n x = Except.error e) :
    nestedFold n (xs₁ ++ x :: xs₂) = ROut.fail e := by
  induction xs₁ with
  | nil => simp only [List.nil_append, nestedFold, hx]
  | cons y rest ih =>
      obtain ⟨b, hb⟩ := h₁ y (List.mem_cons_self y rest)
      simp only [List.cons_append, nestedFold, hb]
      exact ih (fun y2 hy2 => h₁ y2 (List.mem_cons_of_mem y hy2))

/-- Counterexample to C5 as frozen: for a field whose declared type is a
plain user record type (its name `Inner` contains neither of the
substrings `Vec` and `Option` the macro tests for), the recursion
generator falls into an empty `else` branch and emits no nested call at
all, so a nested `check` that fails with `boom` is never consulted and the
whole `check()` returns `Ok(true)` instead of propagating `boom`. -/
theorem c5_direct_record_counterexample :
    (genField c5spec).map (fun fg => runStructCheck eng0 [(fg, RVal.str "payload")]) =
      Except.ok (ROut.ok true)
    ∧ (ROut.ok true : ROut Bool) ≠ ROut.fail "boom" := by
  exact ⟨rfl, by decide⟩

/-- Claim C5 (amended).  Nested-record dispatch is generated only for
fields the macro flags as `Option` or `Vec` by its substring test on the
rendered type: a directly record-typed field whose type name does not
contain the substrings `Vec` or `Option` gets no recursion block at all
(conjunct one; a name such as `Vector3` would instead be given the
vector-iteration block).  Where dispatch happens, a nested failure is
propagated verbatim (same message) and short-circuits the sibling fields
(conjunct three); the elements of a collection are checked in order with
the first failing element's message returned and no later element
evaluated (conjuncts two and four); an `Option`-wrapped record passes
vacuously when absent and otherwise propagates its nested outcome verbatim
(conjuncts five and six); and an `Option<Vec<..>>` field iterates its
present collection the same way (conjunct seven). -/
theorem c5_nested_dispatch :
    (∀ ident : String, strContains ident "Vec" = false →
        strContains ident "Option" = false →
        recKindOf (FieldTy.plain ident) = RecKind.noRec)
  ∧ (∀ (n : RVal → Except String Bool) (xs₁ xs₂ : List RVal) (x : RVal) (e : String),
        (∀ y ∈ xs₁, ∃ b, n y = Except.ok b) → n x = Except.error e →
        nestedFold n (xs₁ ++ x :: xs₂) = ROut.fail e)
  ∧ (∀ (eng : RegexEngine) (fg : FieldGen) (v : RVal) (e : String)
        (rest : List (FieldGen × RVal)),
        runField eng fg v = ROut.fail e →
        runStructCheck eng ((fg, v) :: rest) = ROut.fail e)
  ∧ (∀ (eng : RegexEngine) (fg : FieldGen) (items : List RVal),
        fg.recKind = RecKind.vecRec →
        runFieldRules eng fg (listToRVal items) = ROut.ok () →
        runField eng fg (listToRVal items) = nestedFold fg.nested items)
  ∧ (∀ (eng : RegexEngine) (fg : FieldGen),
        fg.recKind = RecKind.optRec →
        runFieldRules eng fg RVal.noneV = ROut.ok () →
        runField eng fg RVal.noneV = ROut.ok ())
  ∧ (∀ (eng : RegexEngine) (fg : FieldGen) (x : RVal) (e : String),
        fg.recKind = RecKind.optRec →
        runFieldRules eng fg (RVal.someV x) = ROut.ok () →
        fg.nested x = Except.error e →
        runField eng fg (RVal.someV x) = ROut.fail e)
  ∧ (∀ (eng : RegexEngine) (fg : FieldGen) (items : List RVal),
        fg.recKind = RecKind.optVecRec →
        runFieldRules eng fg (RVal.someV (listToRVal items)) = ROut.ok () →
        runField eng fg (RVal.someV (listToRVal items)) =
          nestedFold fg.nested items) := by
  refine ⟨?_, nestedFold_first_fail, ?_, ?_, ?_, ?_, ?_⟩
  · intro ident hv ho
    simp [recKindOf, isVecTy, isOptionTy, tyString, hv, ho]
  · intro eng fg v e rest h
    simp only [runStructCheck, h]
  · intro eng fg items hrec hok
    simp only [runField, hok, runRecursionBlock, hrec, asList_listToRVal]
  · intro eng fg hrec hok
    simp only [runField, hok, runRecursionBlock, hrec]
  · intro eng fg x e hrec hok hne
    simp only [runField, hok, runRecursionBlock, hrec, hne]
  · intro eng fg items hrec hok
    simp only [runField, hok, runRecursionBlock, hrec, asList_listToRVal]

/-- Witness for C5 on the three-element scenario of the spec: element 2 of
3 fails, and the fold returns exactly element 2's message (element 3 plays
no role, by the theorem, which holds for an arbitrary suffix). -/
theorem c5_nested_dispatch_witness :
    nestedFold nC5 ([RVal.int 1] ++ RVal.int 2 :: [RVal.int 3]) =
      ROut.fail "boom2" :=
  c5_nested_dispatch.2.1 nC5 [RVal.int 1] [RVal.int 3] (RVal.int 2) "boom2"
    (by intro y hy
        simp only [List.mem_singleton] at hy
        subst hy
        exact ⟨true, rfl⟩)
    rfl

/-- Claim C6 (code bug).  The derive accepts, with no diagnostic, a field
that carries a field-level message together with a per-rule message
(`c6mix`): in any mode the per-rule message is read with
`unwrap_or_default` and never rejected.  The second conjunct records the
half of the claim the code does implement: with no field-level message, a
rule lacking its own message aborts compilation with the missing-message
diagnostic naming the check kind. -/
theorem c6_message_mixing_accepted :
    (∃ fg, genField c6mix = Except.ok fg)
    ∧ genField c6miss = Except.error ⟨"len"⟩ := by
  exact ⟨⟨_, rfl⟩, rfl⟩

/-- The `Vec` wrapper arm yields either a vector category or unsupported,
never a bare basic category other than unsupported. -/
theorem vecArm_shape (g : GenericValidationType) :
    vecArm g = GenericValidationType.basic BasicValidationType.unsupported
    ∨ ∃ i, vecArm g = GenericValidationType.vec i := by
  cases g with
  | basic b =>
      by_cases hb : b.is_collection_compatible
      · exact Or.inr ⟨GenericValidationType.basic b, by simp [vecArm, hb]⟩
      · simp [vecArm, hb]
  | option i => simp [vecArm]
  | vec i => simp [vecArm]
  | hashSet i => simp [vecArm]
  | hashMap k v => simp [vecArm]

/-- Unfolding of the classifier at a `Vec` wrapper below the depth
ceiling. -/
theorem from_type_inner_vec_eq (t : RustTy) (d : Nat) (hd : ¬d > 5) :
    GenericValidationType.from_type_inner (RustTy.path ["Vec"] [t]) d =
      vecArm (GenericValidationType.from_type_inner t (d + 1)) := by
  rw [GenericValidationType.from_type_inner]
  rw [if_neg hd]
  rfl

/-- Unfolding of the classifier at a `HashSet` wrapper below the depth
ceiling. -/
theorem from_type_inner_hashSet_eq (t : RustTy) (d : Nat) (hd : ¬d > 5) :
    GenericValidationType.from_type_inner (RustTy.path ["HashSet"] [t]) d =
      hashSetArm (GenericValidationType.from_type_inner t (d + 1)) := by
  rw [GenericValidationType.from_type_inner]
  rw [if_neg hd]
  rfl

/-- Result shape of classifying `Vec<T>`: either a vector category or
unsupported, never a bare basic category other than unsupported. -/
theorem from_type_inner_vec_shape (t : RustTy) (d : Nat) :
    GenericValidationType.from_type_inner (RustTy.path ["Vec"] [t]) d =
      GenericValidationType.basic BasicValidationType.unsupported
    ∨ ∃ i, GenericValidationType.from_type_inner (RustTy.path ["Vec"] [t]) d =
        GenericValidationType.vec i := by
  rw [GenericValidationType.from_type_inner]
  split
  · exact Or.inl rfl
  · simp only [List.getLast?]
    exact vecArm_shape (GenericValidationType.from_type_inner t (d + 1))

/-- The redundant disjunction of the boundary check collapses: the deep
rule is accepted exactly when the classified base category is the custom
record category. -/
theorem supports_deep_iff_base_custom (t : RustTy) :
    supports_deep t = true ↔
      (GenericValidationType.from_type t).get_base_type =
        BasicValidationType.customStruct := by
  have hcollapse : ∀ g : GenericValidationType,
      (g.is_custom_struct || (g.is_collection && g.is_custom_struct)) =
        g.is_custom_struct := by
    intro g
    cases hg : g.is_custom_struct <;> simp [hg]
  rw [supports_deep, hcollapse]
  cases hb : (GenericValidationType.from_type t).get_base_type <;>
    simp [GenericValidationType.is_custom_struct, hb]

/-- Claim C7.  The `deep` rule is accepted for a directly record-typed
field and for a single collection layer of records, while any doubly
wrapped collection `Vec<Vec<T>>` is rejected whatever `T` is (the
classifier only admits basic categories under a collection wrapper);
moreover acceptance is exactly the condition that the classified base
category is the custom record category. -/
theorem c7_deep_rule :
    supports_deep myStructTy = true
  ∧ supports_deep (RustTy.path ["Vec"] [myStructTy]) = true
  ∧ supports_deep (RustTy.path ["HashSet"] [myStructTy]) = true
  ∧ (∀ t : RustTy,
        supports_deep (RustTy.path ["Vec"] [RustTy.path ["Vec"] [t]]) = false)
  ∧ (∀ t : RustTy,
        supports_deep t = true ↔
          (GenericValidationType.from_type t).get_base_type =
            BasicValidationType.customStruct) := by
  have hms1 : GenericValidationType.from_type_inner myStructTy 1 =
      GenericValidationType.basic BasicValidationType.customStruct := by
    show GenericValidationType.from_type_inner (RustTy.path ["MyStruct"] []) 1 = _
    rw [GenericValidationType.from_type_inner]
    rfl
  have hms0 : GenericValidationType.from_type_inner myStructTy 0 =
      GenericValidationType.basic BasicValidationType.customStruct := by
    show GenericValidationType.from_type_inner (RustTy.path ["MyStruct"] []) 0 = _
    rw [GenericValidationType.from_type_inner]
    rfl
  refine ⟨?_, ?_, ?_, ?_, supports_deep_iff_base_custom⟩
  · rw [supports_deep_iff_base_custom, GenericValidationType.from_type, hms0]
    rfl
  · rw [supports_deep_iff_base_custom, GenericValidationType.from_type,
      from_type_inner_vec_eq myStructTy 0 (by omega), hms1]
    rfl
  · rw [supports_deep_iff_base_custom, GenericValidationType.from_type,
      from_type_inner_hashSet_eq myStructTy 0 (by omega), hms1]
    rfl
  intro t
  have h2 : (GenericValidationType.from_type
      (RustTy.path ["Vec"] [RustTy.path ["Vec"] [t]])).get_base_type =
      BasicValidationType.unsupported := by
    rw [GenericValidationType.from_type,
      from_type_inner_vec_eq (RustTy.path ["Vec"] [t]) 0 (by omega)]
    rcases from_type_inner_vec_shape t 1 with h | ⟨i, h⟩
    · simp [h, vecArm, BasicValidationType.is_collection_compatible,
        GenericValidationType.get_base_type]
    · simp [h, vecArm, GenericValidationType.get_base_type]
  cases hs : supports_deep (RustTy.path ["Vec"] [RustTy.path ["Vec"] [t]])
  · rfl
  · have := (supports_deep_iff_base_custom
        (RustTy.path ["Vec"] [RustTy.path ["Vec"] [t]])).mp hs
    rw [h2] at this
    exact absurd this (by decide)

/-- Entry collection over a list of string-literal consts yields exactly
those entries, in order, for every pattern text. -/
theorem collectEntries_map (l : List (String × String)) :
    collectEntries (l.map (fun p => ModItem.constStr p.1 p.2)) = Except.ok l := by
  induction l with
  | nil => rfl
  | cons e rest ih => simp [collectEntries, ih, Except.map]

/-- The generator on a module of string-literal consts: unchanged module
for no entries, otherwise the registry over exactly the declared entries;
in both cases it succeeds without inspecting any pattern text. -/
theorem regexes_static_gen_mkMod (l : List (String × String)) :
    regexes_static_gen (mkMod l) =
      Except.ok (if l = [] then GenOut.unchanged else GenOut.registry l) := by
  cases l with
  | nil => rfl
  | cons e rest =>
      simp only [regexes_static_gen, mkMod, Bool.not_true, Bool.false_eq_true,
        if_false]
      rw [collectEntries_map (e :: rest)]
      simp

/-- Claim C8.  Building the registry succeeds for every set of named
string constants — registration never validates the pattern text (the
generator does not even receive a pattern compiler) — while the first
access to an entry's matcher compiles the pattern: an invalid pattern is a
fatal fault there, a valid one yields the compiled matcher. -/
theorem c8_registry_lazy_fatal :
    (∀ l : List (String × String),
        regexes_static_gen (mkMod l) =
          Except.ok (if l = [] then GenOut.unchanged else GenOut.registry l))
  ∧ (∀ (eng : RegexEngine) (p : String), eng.compile p = none →
        lazy_regex_force eng p = FatalOr.fatal)
  ∧ (∀ (eng : RegexEngine) (p : String) (m : String → Bool),
        eng.compile p = some m → lazy_regex_force eng p = FatalOr.ok m) := by
  refine ⟨regexes_static_gen_mkMod, ?_, ?_⟩
  · intro eng p h
    simp [lazy_regex_force, h]
  · intro eng p m h
    simp [lazy_regex_force, h]

/-- Witness for C8: a three-entry module with arbitrary pattern texts
registers successfully, and forcing a matcher under an engine that rejects
every pattern is fatal. -/
theorem c8_registry_lazy_fatal_witness :
    regexes_static_gen (mkMod l3) = Except.ok (GenOut.registry l3)
    ∧ lazy_regex_force eng0 "(" = FatalOr.fatal :=
  ⟨c8_registry_lazy_fatal.1 l3,
   c8_registry_lazy_fatal.2.1 eng0 "(" rfl⟩

/-- Arm-by-arm lookup of an entry name returns the entry's identifier
offset by the arm counter, provided the names are distinct. -/
theorem from_name_aux_get (l : List (String × String)) (k i : Nat)
    (h : i < l.length) (hnd : (l.map Prod.fst).Nodup) :
    from_name_aux ((l.get ⟨i, h⟩).1) k l = some (k + i) := by
  induction l generalizing k i with
  | nil => exact absurd h (by simp)
  | cons e rest ih =>
      cases i with
      | zero => simp [from_name_aux]
      | succ j =>
          have hj : j < rest.length := by
            simpa using h
          have hmem : ((rest.get ⟨j, hj⟩).1) ∈ rest.map Prod.fst :=
            List.mem_map_of_mem Prod.fst (rest.get_mem j hj)
          have hne : ¬e.1 = (rest.get ⟨j, hj⟩).1 := by
            intro hcontra
            have : e.1 ∉ rest.map Prod.fst := (List.nodup_cons.mp hnd).1
            exact this (hcontra ▸ hmem)
          have := ih (k + 1) j hj (List.nodup_cons.mp hnd).2
          simp only [List.get] at *
          simp only [from_name_aux, hne, if_false]
          rw [this]
          congr 1
          omega

/-- Arm-by-arm lookup misses every string that is not a declared name. -/
theorem from_name_aux_of_not_mem (l : List (String × String)) (s : String)
    (k : Nat) (h : s ∉ l.map Prod.fst) : from_name_aux s k l = none := by
  induction l generalizing k with
  | nil => rfl
  | cons e rest ih =>
      simp only [List.map_cons, List.mem_cons] at h
      push_neg at h
      have hne : ¬e.1 = s := fun hc => h.1 hc.symm
      simp only [from_name_aux, hne, if_false]
      exact ih (k + 1) h.2

/-- Claim C9.  For distinct declared constant names (as Rust's duplicate
definition check guarantees), the generated registry enumerates exactly the
declared names in declaration order with no duplicates, `from_name` maps
the i-th registered name to the i-th identifier, and every other string to
the not-found result. -/
theorem c9_names_round_trip (l : List (String × String)) (hne : l ≠ [])
    (hnd : (l.map Prod.fst).Nodup) :
    regexes_static_gen (mkMod l) = Except.ok (GenOut.registry l)
    ∧ names l = l.map Prod.fst
    ∧ (names l).Nodup
    ∧ (∀ i (h : i < l.length), from_name l ((l.get ⟨i, h⟩).1) = some i)
    ∧ (∀ s, s ∉ l.map Prod.fst → from_name l s = none) := by
  refine ⟨?_, rfl, hnd, ?_, ?_⟩
  · rw [regexes_static_gen_mkMod l, if_neg hne]
  · intro i h
    have := from_name_aux_get l 0 i h hnd
    simpa [from_name] using this
  · intro s hs
    exact from_name_aux_of_not_mem l s 0 hs

/-- Witness for C9 on the three-entry module of the repository test:
registration succeeds, the enumeration lists the names in order, the second
name resolves to the second identifier and an unregistered name resolves to
not-found. -/
theorem c9_names_round_trip_witness :
    regexes_static_gen (mkMod l3) = Except.ok (GenOut.registry l3)
    ∧ names l3 = ["EMAIL", "DIGITS", "HEX_VALUE"]
    ∧ from_name l3 "DIGITS" = some 1
    ∧ from_name l3 "NOPE" = none :=
  ⟨(c9_names_round_trip l3 (by decide) (by decide)).1,
   (c9_names_round_trip l3 (by decide) (by decide)).2.1,
   (c9_names_round_trip l3 (by decide) (by decide)).2.2.2.1 1 (by decide),
   (c9_names_round_trip l3 (by decide) (by decide)).2.2.2.2 "NOPE" (by decide)⟩

/-- Claim C10.  For every derive input that is not a struct with named
fields the derive succeeds with no diagnostic and no field blocks, so the
generated `check` and `check_group` bodies are the bare `Ok(true)` for
every value and every requested group. -/
theorem c10_non_struct_derive (d : DeriveData) (h : isNamedStruct d = false) :
    derive_validate d = Except.ok []
    ∧ (∀ eng : RegexEngine, runStructCheck eng [] = ROut.ok true)
    ∧ (∀ (eng : RegexEngine) (g : RVal), runStructGroup eng g [] = ROut.ok true) := by
  refine ⟨?_, fun eng => rfl, fun eng g => rfl⟩
  cases d <;> first | rfl | simp [isNamedStruct] at h

/-- Witness for C10 at an enum input. -/
theorem c10_non_struct_derive_witness :
    derive_validate DeriveData.enumData = Except.ok []
    ∧ runStructCheck eng0 [] = ROut.ok true
    ∧ runStructGroup eng0 (RVal.str "G") [] = ROut.ok true :=
  ⟨(c10_non_struct_derive DeriveData.enumData rfl).1,
   (c10_non_struct_derive DeriveData.enumData rfl).2.1 eng0,
   (c10_non_struct_derive DeriveData.enumData rfl).2.2 eng0 (RVal.str "G")⟩
